import Mathlib

/-!
Shallow embedding of the prompt-manager application (source files
`login.py` and `pages/app.py`): the data model, the session gate, the
read cache, the view assembler (search / sort / rating filter), the
mutation handlers and the export encoder, together with theorems that
settle the specification claims about them.

External collaborators (the identity verifier, the remote record store
transport and the file serialization layer) are out of scope per the
specification; the store is modelled as three in-memory tables and the
serialized artifacts by the ordered row sequences they carry.
-/

namespace PromptManager

/-- A row of the `prompts` table: store-assigned `id`, the three text
fields, `created_by`, and the optional edit metadata written by the
edit handler in `pages/app.py`. -/
structure PromptRow where
  id : Nat
  prompt : String
  query : String
  response : String
  created_by : String
  last_modified_by : Option String := none
  updated_at : Option Nat := none
  deriving DecidableEq, Repr

/-- A row of the `ratings` table, keyed by the composite
`(prompt_id, user_email)`; `rating` is the string `"up"` or `"down"`. -/
structure RatingRow where
  prompt_id : Nat
  user_email : String
  rating : String
  deriving DecidableEq, Repr

/-- A row of the `notes` table. -/
structure NoteRow where
  prompt_id : Nat
  note : String
  created_by : String
  deriving DecidableEq, Repr

/-- The record store reduced to the three tables `pages/app.py` touches.
`prompts` is kept in fetched order (the store returns it ordered by
`created_at` descending, an external primitive). -/
structure Store where
  prompts : List PromptRow
  ratings : List RatingRow
  notes : List NoteRow
  deriving DecidableEq, Repr

/-- One record-store call, used to trace the order of the calls a
handler issues. -/
inductive StoreOp where
  | insertPromptOp (row : PromptRow)
  | delRatingsOp (pid : Nat)
  | delNotesOp (pid : Nat)
  | delPromptOp (pid : Nat)
  deriving DecidableEq, Repr

/-- Effect of one store call on the store state. -/
def applyOp (s : Store) : StoreOp → Store
  | StoreOp.insertPromptOp row => { s with prompts := s.prompts ++ [row] }
  | StoreOp.delRatingsOp pid =>
      { s with ratings := s.ratings.filter (fun r => r.prompt_id != pid) }
  | StoreOp.delNotesOp pid =>
      { s with notes := s.notes.filter (fun n => n.prompt_id != pid) }
  | StoreOp.delPromptOp pid =>
      { s with prompts := s.prompts.filter (fun p => p.id != pid) }

/-- Store-assigned fresh id for an inserted prompt (the id choice is the
external store's; only freshness is relied upon). -/
def freshId (s : Store) : Nat :=
  (s.prompts.foldl (fun m p => max m p.id) 0) + 1

/-- `supabase.table("prompts").insert(...)` with the payload the page
sends: the three text fields and `created_by`. -/
def insertPrompt (p q r email : String) (s : Store) : Store :=
  { s with prompts := s.prompts ++
      [{ id := freshId s, prompt := p, query := q, response := r, created_by := email }] }

/-! ## Session state and the protected-view gate -/

/-- The browser session state as the two pages use it.  Each field is
`none` when the key is missing from `st.session_state`, and
`some v` when the key is present with value `v` (`v = none` models the
Python value `None`, which `login.py` writes before sign-in). -/
structure SessionState where
  userEmail : Option (Option String)
  userRole : Option (Option String)
  deriving DecidableEq, Repr

/-- Outcome of one render pass of the protected page. -/
inductive GateResult where
  | toLogin
  | renderMain (email : Option String)
  deriving DecidableEq, Repr

/-- The gate at the top of `pages/app.py`: it tests only key membership
(`"user_email" not in st.session_state`); when the key is present the
protected view renders with whatever value the key holds. -/
def appGate (ss : SessionState) : GateResult :=
  match ss.userEmail with
  | none => GateResult.toLogin
  | some v => GateResult.renderMain v

/-- The session-state initialization at the top of `login.py`: when the
`user_email` key is missing, both keys are created with value `None`. -/
def loginInit (ss : SessionState) : SessionState :=
  match ss.userEmail with
  | none => { userEmail := some none, userRole := some none }
  | some _ => ss

/-- `ADMIN = st.session_state.get("user_role") == "admin"` in
`pages/app.py` (a missing key yields `None`, which is not `"admin"`). -/
def isAdminOf (ss : SessionState) : Bool :=
  ss.userRole == some (some "admin")

/-! ## Read cache (`@st.cache_data(ttl=60)`) -/

/-- The memoization state of the three read queries: each entry is
`none` when absent (never fetched, or cleared by
`st.cache_data.clear()`), otherwise the fetch time and cached value. -/
structure Cache where
  promptsE : Option (Nat × List PromptRow)
  ratingsE : Option (Nat × List RatingRow)
  notesE : Option (Nat × List NoteRow)
  deriving DecidableEq, Repr

/-- The cache with no entries; also the result of
`st.cache_data.clear()`. -/
def emptyCache : Cache :=
  { promptsE := none, ratingsE := none, notesE := none }

/-- `fetch_prompts`: serve the cached value while it is younger than the
60-time-unit ttl, otherwise call the store (which returns `s.prompts`,
already ordered newest first) and cache it.  The middle component
records whether the record store was called. -/
def fetch_prompts (now : Nat) (s : Store) (c : Cache) :
    List PromptRow × Bool × Cache :=
  match c.promptsE with
  | some (t, v) =>
      if now - t < 60 then (v, false, c)
      else (s.prompts, true, { c with promptsE := some (now, s.prompts) })
  | none => (s.prompts, true, { c with promptsE := some (now, s.prompts) })

/-- `fetch_ratings`, same ttl policy as `fetch_prompts`. -/
def fetch_ratings (now : Nat) (s : Store) (c : Cache) :
    List RatingRow × Bool × Cache :=
  match c.ratingsE with
  | some (t, v) =>
      if now - t < 60 then (v, false, c)
      else (s.ratings, true, { c with ratingsE := some (now, s.ratings) })
  | none => (s.ratings, true, { c with ratingsE := some (now, s.ratings) })

/-- `fetch_notes`, same ttl policy as `fetch_prompts`. -/
def fetch_notes (now : Nat) (s : Store) (c : Cache) :
    List NoteRow × Bool × Cache :=
  match c.notesE with
  | some (t, v) =>
      if now - t < 60 then (v, false, c)
      else (s.notes, true, { c with notesE := some (now, s.notes) })
  | none => (s.notes, true, { c with notesE := some (now, s.notes) })

/-! ## View assembler: rating lookup, search, rating filter, sort -/

/-- The `rating_map` dictionary built from the fetched ratings, read at
key `(prompt_id, user_email)` (a later duplicate key overwrites an
earlier one, as in the Python dict comprehension). -/
def get_user_rating (ratings : List RatingRow) (email : String) (pid : Nat) :
    Option String :=
  ratings.foldl
    (fun acc r =>
      if r.prompt_id == pid && r.user_email == email then some r.rating else acc)
    none

/-- Python `str.lower()` on the character list (ASCII lowering, the
range the application's data exercises). -/
def pyLower (s : String) : List Char :=
  s.data.map Char.toLower

/-- Whether `needle` starts the list `hay`. -/
def leadMatch : List Char → List Char → Bool
  | [], _ => true
  | _ :: _, [] => false
  | a :: as, b :: bs => a == b && leadMatch as bs

/-- Python substring membership `needle in hay`. -/
def occursIn (needle : List Char) : List Char → Bool
  | [] => leadMatch needle []
  | b :: t => leadMatch needle (b :: t) || occursIn needle t

/-- The haystack the search filter builds:
`f"{p['prompt']} {p['query']} {p['response']}"` — the three fields
joined by single spaces. -/
def searchHay (p : PromptRow) : String :=
  p.prompt ++ " " ++ p.query ++ " " ++ p.response

/-- The search filter of `pages/app.py`: an empty search keeps
everything (`if search:` is falsy); otherwise keep the prompt when the
lowercased search is a substring of the lowercased space-joined
haystack. -/
def passSearch (search : String) (p : PromptRow) : Bool :=
  if search == "" then true
  else occursIn (pyLower search) (pyLower (searchHay p))

/-- Modelled from the spec words of claim C9 only, for comparison with
`passSearch`: substring of the direct (separator-free) concatenation of
the `prompt`, `query` and `response` fields. -/
def passSearchSpec (search : String) (p : PromptRow) : Bool :=
  if search == "" then true
  else occursIn (pyLower search) (pyLower (p.prompt ++ p.query ++ p.response))

/-- The three `continue` tests of the rating filter, as one keep
predicate over the viewer rating already looked up. -/
def passRatingFilter (rf : String) (rating : Option String) : Bool :=
  !(rf == "👍 Liked" && !(rating == some "up")) &&
  !(rf == "👎 Disliked" && !(rating == some "down")) &&
  !(rf == "Unrated" && rating.isSome)

/-- The `filtered` list: the fetched prompts that pass the rating
filter and then the search filter, in fetched order. -/
def filteredList (prompts : List PromptRow) (ratings : List RatingRow)
    (email search rf : String) : List PromptRow :=
  prompts.filter
    (fun p => passRatingFilter rf (get_user_rating ratings email p.id) &&
              passSearch search p)

/-- `if sort == "Oldest First": filtered.reverse()`. -/
def applySort (sort : String) (l : List PromptRow) : List PromptRow :=
  if sort == "Oldest First" then l.reverse else l

/-- The displayed sequence: the filtered list after the sort step. -/
def displayedList (prompts : List PromptRow) (ratings : List RatingRow)
    (email search sort rf : String) : List PromptRow :=
  applySort sort (filteredList prompts ratings email search rf)

/-! ## Export encoder -/

/-- One element of `export_rows`: the three text fields plus the
viewer rating column that the download paths drop. -/
structure ExportRow where
  prompt : String
  query : String
  response : String
  rating : Option String
  deriving DecidableEq, Repr

/-- A `(prompt, query, response)` triple, the content both serialized
artifacts carry per row (serialization itself is an external
collaborator per the spec). -/
structure Triple where
  prompt : String
  query : String
  response : String
  deriving DecidableEq, Repr

/-- The triple of a prompt row. -/
def tripleOf (p : PromptRow) : Triple :=
  { prompt := p.prompt, query := p.query, response := p.response }

/-- `export_rows` in `pages/app.py`: built by iterating over `prompts`
(the full fetched list), one row per fetched prompt, with the viewer
rating looked up in `rating_map`. -/
def export_rows (prompts : List PromptRow) (ratings : List RatingRow)
    (email : String) : List ExportRow :=
  prompts.map
    (fun p => { prompt := p.prompt, query := p.query, response := p.response,
                rating := get_user_rating ratings email p.id })

/-- The ordered triples of the JSON artifact: `json.dumps` of
`export_rows` with the `rating` key removed from each row dict. -/
def jsonExportTriples (prompts : List PromptRow) (ratings : List RatingRow)
    (email : String) : List Triple :=
  (export_rows prompts ratings email).map
    (fun row => { prompt := row.prompt, query := row.query, response := row.response })

/-- The ordered triples of the CSV artifact:
`pd.DataFrame(export_rows).drop(columns=["rating"]).to_csv` keeps the
same three columns in the same row order. -/
def csvExportTriples (prompts : List PromptRow) (ratings : List RatingRow)
    (email : String) : List Triple :=
  (export_rows prompts ratings email).map
    (fun row => { prompt := row.prompt, query := row.query, response := row.response })

/-! ## Mutation handlers -/

/-- The user-visible outcome of one handler run: a write was performed,
the handler did nothing (button not rendered / validation branch with
no message), or `st.error(msg)` was shown. -/
inductive ActionOutcome where
  | performed
  | skipped
  | errorShown (msg : String)
  deriving DecidableEq, Repr

/-- The three store calls of the admin delete handler, in the order
`pages/app.py` issues them. -/
def adminDeleteOps (pid : Nat) : List StoreOp :=
  [StoreOp.delRatingsOp pid, StoreOp.delNotesOp pid, StoreOp.delPromptOp pid]

/-- Store state after the admin delete cascade. -/
def adminDeleteStore (pid : Nat) (s : Store) : Store :=
  (adminDeleteOps pid).foldl applyOp s

/-- The delete control: `if ADMIN and st.button("🗑️", ...)`.  When the
session is not admin the button is not even rendered, so nothing
happens: no store call, no cache clear, no error message. -/
def deleteClick (isAdmin pressed : Bool) (pid : Nat) (s : Store) (c : Cache) :
    Store × Cache × ActionOutcome :=
  if isAdmin && pressed then (adminDeleteStore pid s, emptyCache, ActionOutcome.performed)
  else (s, c, ActionOutcome.skipped)

/-- Replace-or-append on the `ratings` table at the composite key
`(prompt_id, user_email)` — the store `upsert` with
`on_conflict="prompt_id,user_email"`. -/
def upsertRating (row : RatingRow) : List RatingRow → List RatingRow
  | [] => [row]
  | r :: rs =>
      if r.prompt_id == row.prompt_id && r.user_email == row.user_email then
        row :: rs
      else r :: upsertRating row rs

/-- The 👍 / 👎 handler: upsert the vote, clear the cache. -/
def rateClick (pid : Nat) (email value : String) (s : Store) (c : Cache) :
    Store × Cache :=
  let _ := c
  ({ s with ratings := upsertRating { prompt_id := pid, user_email := email, rating := value } s.ratings },
   emptyCache)

/-- The Add New Prompt form submit: `if p and q and r` (all three
non-empty) insert and clear the cache, else show
`"All fields required"` and make no store call.  The last component
traces the store calls issued. -/
def addPromptSubmit (p q r email : String) (s : Store) (c : Cache) :
    Store × Cache × ActionOutcome × List StoreOp :=
  if !(p == "") && !(q == "") && !(r == "") then
    (insertPrompt p q r email s, emptyCache, ActionOutcome.performed,
     [StoreOp.insertPromptOp
        { id := freshId s, prompt := p, query := q, response := r, created_by := email }])
  else (s, c, ActionOutcome.errorShown "All fields required", [])

/-- The edit form submit: same non-empty validation, update matched by
id, stamp `updated_at` and `last_modified_by`, clear the cache. -/
def editPromptSubmit (pid : Nat) (p q r email : String) (now : Nat)
    (s : Store) (c : Cache) : Store × Cache × ActionOutcome :=
  if !(p == "") && !(q == "") && !(r == "") then
    let upd := fun (row : PromptRow) =>
      if row.id == pid then
        { row with prompt := p, query := q, response := r,
                   updated_at := some now, last_modified_by := some email }
      else row
    ({ s with prompts := s.prompts.map upd }, emptyCache, ActionOutcome.performed)
  else (s, c, ActionOutcome.errorShown "All fields required")

/-- The note form submit: `if note:` insert and clear the cache;
an empty note does nothing (no message in the code). -/
def addNoteSubmit (pid : Nat) (text email : String) (s : Store) (c : Cache) :
    Store × Cache × ActionOutcome :=
  if !(text == "") then
    ({ s with notes := s.notes ++ [{ prompt_id := pid, note := text, created_by := email }] },
     emptyCache, ActionOutcome.performed)
  else (s, c, ActionOutcome.skipped)

/-! ## Bulk import -/

/-- One parsed entry of the uploaded JSON document; each field is
optional and `d.get(..., "")` defaults it to the empty string. -/
structure ImportEntry where
  prompt : Option String
  query : Option String
  response : Option String
  deriving DecidableEq, Repr

/-- The Import All loop from position `k`: insert one prompt per entry
until an insert raises (`fails` says which store calls raise); the
raising call inserts nothing and the exception aborts the loop.  The
flag is `true` when every insert succeeded. -/
def bulkImportLoop (email : String) (fails : Nat → Bool) :
    Nat → List ImportEntry → Store → Store × Bool
  | _, [], s => (s, true)
  | k, e :: es, s =>
      if fails k then (s, false)
      else
        bulkImportLoop email fails (k + 1) es
          (insertPrompt (e.prompt.getD "") (e.query.getD "") (e.response.getD "") email s)

/-- The Import All button handler: run the loop inside `try`; only on
full success does the handler reach `st.cache_data.clear()` — the
`except` branch shows the error and leaves the cache as it was. -/
def bulkImportClick (email : String) (fails : Nat → Bool)
    (entries : List ImportEntry) (s : Store) (c : Cache) :
    Store × Cache × Bool :=
  match bulkImportLoop email fails 0 entries s with
  | (s1, true) => (s1, emptyCache, true)
  | (s1, false) => (s1, c, false)

/-- The store after inserting the rows of the given entries in order,
as the import loop does. -/
def importInserted (email : String) (es : List ImportEntry) (s : Store) : Store :=
  es.foldl
    (fun st e =>
      insertPrompt (e.prompt.getD "") (e.query.getD "") (e.response.getD "") email st)
    s

/-! ## Helper lemmas -/

/-- The composite key of a rating row. -/
def ratingKey (r : RatingRow) : Nat × String :=
  (r.prompt_id, r.user_email)

lemma filter_bne_beq_nil {α : Type} (f : α → Nat) (x : Nat) (l : List α) :
    (l.filter (fun a => f a != x)).filter (fun a => f a == x) = [] := by
  induction l with
  | nil => rfl
  | cons a t ih =>
    by_cases h : f a = x
    · simp [List.filter_cons, h, ih]
    · simp [List.filter_cons, h, ih]

lemma filter_key_nil (pid : Nat) (email : String) (l : List RatingRow)
    (h : (pid, email) ∉ l.map ratingKey) :
    l.filter (fun r => r.prompt_id == pid && r.user_email == email) = [] := by
  induction l with
  | nil => rfl
  | cons r t ih =>
    simp only [List.map_cons, List.mem_cons, not_or] at h
    obtain ⟨h1, h2⟩ := h
    have hb : (r.prompt_id == pid && r.user_email == email) = false := by
      rcases heq : (r.prompt_id == pid && r.user_email == email) with _ | _
      · rfl
      · rw [Bool.and_eq_true, beq_iff_eq, beq_iff_eq] at heq
        exact absurd (by simp [ratingKey, heq.1, heq.2]) h1
    rw [List.filter_cons, hb]
    simp only [Bool.false_eq_true, if_false]
    exact ih h2

lemma upsert_up_down_filter (pid : Nat) (email v1 v2 : String)
    (l : List RatingRow) (h : (l.map ratingKey).Nodup) :
    (upsertRating { prompt_id := pid, user_email := email, rating := v2 }
        (upsertRating { prompt_id := pid, user_email := email, rating := v1 } l)).filter
        (fun r => r.prompt_id == pid && r.user_email == email)
      = [{ prompt_id := pid, user_email := email, rating := v2 }] := by
  induction l with
  | nil => simp [upsertRating, List.filter_cons]
  | cons r t ih =>
    rw [List.map_cons, List.nodup_cons] at h
    obtain ⟨hnotin, hnd⟩ := h
    by_cases hm : (r.prompt_id == pid && r.user_email == email) = true
    · rw [Bool.and_eq_true, beq_iff_eq, beq_iff_eq] at hm
      have hkey : (pid, email) ∉ t.map ratingKey := by
        simpa [ratingKey, hm.1, hm.2] using hnotin
      simp [upsertRating, hm.1, hm.2, List.filter_cons, filter_key_nil pid email t hkey]
    · have hb : (r.prompt_id == pid && r.user_email == email) = false :=
        Bool.not_eq_true _ ▸ Bool.eq_false_iff.mpr hm
      simp only [upsertRating, hb, Bool.false_eq_true, if_false]
      rw [List.filter_cons, hb]
      simp only [Bool.false_eq_true, if_false]
      exact ih hnd

lemma upsert_idem (row : RatingRow) (l : List RatingRow) :
    upsertRating row (upsertRating row l) = upsertRating row l := by
  induction l with
  | nil => simp [upsertRating]
  | cons r t ih =>
    by_cases hm : (r.prompt_id == row.prompt_id && r.user_email == row.user_email) = true
    · simp [upsertRating, hm]
    · simp only [upsertRating, hm, if_false, Bool.false_eq_true]
      exact congrArg (r :: ·) ih

lemma bulkLoop_stops (email : String) (fails : Nat → Bool) :
    ∀ (es : List ImportEntry) (k0 k : Nat) (s : Store),
      k < es.length → fails (k0 + k) = true → (∀ j, j < k → fails (k0 + j) = false) →
      bulkImportLoop email fails k0 es s = (importInserted email (es.take k) s, false) := by
  intro es
  induction es with
  | nil =>
    intro k0 k s hk _ _
    exact absurd hk (by simp)
  | cons e t ih =>
    intro k0 k s hk hf hprev
    cases k with
    | zero =>
      have h0 : fails k0 = true := by simpa using hf
      simp [bulkImportLoop, h0, importInserted]
    | succ k1 =>
      have h0 : fails k0 = false := by simpa using hprev 0 (Nat.succ_pos k1)
      have step := ih (k0 + 1) k1
        (insertPrompt (e.prompt.getD "") (e.query.getD "") (e.response.getD "") email s)
        (by simpa using Nat.lt_of_succ_lt_succ hk)
        (by have := hf; rw [show k0 + (k1 + 1) = k0 + 1 + k1 by omega] at this; exact this)
        (by
          intro j hj
          have := hprev (j + 1) (Nat.succ_lt_succ hj)
          rw [show k0 + (j + 1) = k0 + 1 + j by omega] at this
          exact this)
      simp only [bulkImportLoop, h0, Bool.false_eq_true, if_false]
      rw [step]
      simp [importInserted]

/-! ## Claim theorems -/

/-- Claim C5 (confirmed): selecting sort "Oldest First" yields exactly
the reverse of the already-filtered sequence, for every fetched prompt
list, rating table, viewer, search text and rating filter — it is the
reversal of the filtered list in fetched order, not a re-derived
ascending-timestamp sort. -/
theorem oldest_first_reverses_filtered :
    ∀ (prompts : List PromptRow) (ratings : List RatingRow) (email search rf : String),
      displayedList prompts ratings email search "Oldest First" rf =
        (filteredList prompts ratings email search rf).reverse := by
  intro prompts ratings email search rf
  rfl

/-- Claim C2 (code bug evaluated): the login page initializes a fresh
session to hold the `user_email` key with value `None`; on that state
the protected-page gate renders the main view carrying no email (the
gate only tests key membership), while a state without the key is sent
to login. -/
theorem gate_key_presence_bug :
    loginInit { userEmail := none, userRole := none } =
      { userEmail := some none, userRole := some none }
    ∧ appGate { userEmail := some none, userRole := some none } =
        GateResult.renderMain none
    ∧ appGate { userEmail := none, userRole := none } = GateResult.toLogin :=
  ⟨rfl, rfl, rfl⟩

/-- Claim C3 (counterexample to the claim as stated): a delete attempt
in a non-admin session is silently skipped — it does not fail with an
`Unauthorized` error. -/
theorem nonadmin_delete_silent_cex :
    deleteClick
        (isAdminOf { userEmail := some (some "u"), userRole := some (some "user") })
        true 7
        { prompts := [{ id := 7, prompt := "p", query := "q", response := "r", created_by := "u" }],
          ratings := [{ prompt_id := 7, user_email := "u", rating := "up" }],
          notes := [{ prompt_id := 7, note := "n", created_by := "u" }] }
        emptyCache
      = ({ prompts := [{ id := 7, prompt := "p", query := "q", response := "r", created_by := "u" }],
           ratings := [{ prompt_id := 7, user_email := "u", rating := "up" }],
           notes := [{ prompt_id := 7, note := "n", created_by := "u" }] },
         emptyCache, ActionOutcome.skipped)
    ∧ ActionOutcome.skipped ≠ ActionOutcome.errorShown "Unauthorized" := by
  decide

/-- Claim C3 (amended): for every prompt id and session whose role is
not admin, a delete attempt leaves the prompts, ratings and notes
tables (and the cache) unchanged; the action is skipped without
executing any delete and without surfacing an error. -/
theorem nonadmin_delete_no_effect :
    ∀ (ss : SessionState) (pressed : Bool) (pid : Nat) (s : Store) (c : Cache),
      isAdminOf ss = false →
      deleteClick (isAdminOf ss) pressed pid s c = (s, c, ActionOutcome.skipped) := by
  intro ss pressed pid s c h
  rw [h]
  simp [deleteClick]

/-- Witness for `nonadmin_delete_no_effect` at a concrete non-admin
session and store. -/
theorem nonadmin_delete_no_effect_witness :
    deleteClick
        (isAdminOf { userEmail := some (some "v"), userRole := some (some "user") })
        true 1
        { prompts := [], ratings := [], notes := [] } emptyCache
      = ({ prompts := [], ratings := [], notes := [] }, emptyCache,
         ActionOutcome.skipped) :=
  nonadmin_delete_no_effect
    { userEmail := some (some "v"), userRole := some (some "user") }
    true 1 { prompts := [], ratings := [], notes := [] } emptyCache (by decide)

/-- Claim C9 (counterexample to the claim as stated): for the prompt
with fields "A", "B", "C" and search "ab", the lowercased search text
is a substring of the lowercased field concatenation "abc", so the
claim keeps the prompt — yet the code filter drops it, because the code
matches against the space-joined text "a b c". -/
theorem search_concat_cex :
    filteredList
        [{ id := 1, prompt := "A", query := "B", response := "C", created_by := "u" }]
        [] "u" "ab" "All" = []
    ∧ passSearchSpec "ab"
        { id := 1, prompt := "A", query := "B", response := "C", created_by := "u" } = true
    ∧ passSearch "ab"
        { id := 1, prompt := "A", query := "B", response := "C", created_by := "u" } = false := by
  decide

/-- Claim C9 (amended): the search filter keeps exactly the prompts for
which the lowercased search text is a substring of the lowercased
space-joined concatenation of the prompt, query and response fields; an
empty search keeps every prompt; and over the prompts "Fetch user",
"Delete order", "Fetch order", searching "fetch" keeps exactly the
first and the third. -/
theorem search_filter_spacejoined :
    ∀ (prompts : List PromptRow) (ratings : List RatingRow) (email search : String),
      filteredList prompts ratings email search "All" = prompts.filter (passSearch search)
      ∧ filteredList prompts ratings email "" "All" = prompts
      ∧ (∀ p, passSearch search p =
          (search == "" ||
            occursIn (pyLower search)
              (pyLower (p.prompt ++ " " ++ p.query ++ " " ++ p.response))))
      ∧ filteredList
          [{ id := 1, prompt := "Fetch user", query := "", response := "", created_by := "a" },
           { id := 2, prompt := "Delete order", query := "", response := "", created_by := "a" },
           { id := 3, prompt := "Fetch order", query := "", response := "", created_by := "a" }]
          ratings email "fetch" "All" =
          [{ id := 1, prompt := "Fetch user", query := "", response := "", created_by := "a" },
           { id := 3, prompt := "Fetch order", query := "", response := "", created_by := "a" }] := by
  intro prompts ratings email search
  refine ⟨rfl, ?_, ?_, ?_⟩
  · show prompts.filter (fun _ => true) = prompts
    exact List.filter_true prompts
  · intro p
    by_cases hs : (search == "") = true
    · simp [passSearch, hs]
    · simp [passSearch, searchHay, Bool.eq_false_iff.mpr hs]
  · show List.filter (passSearch "fetch") _ = _
    decide

/-- Claim C1 (counterexample to the claim as stated): in a session
state whose search text filters the displayed list down to the first
prompt only, the JSON and CSV artifacts still carry the triples of both
fetched prompts — the export is built from the full fetched list, not
from the filtered/displayed set. -/
theorem export_ignores_filter_cex :
    displayedList
        [{ id := 1, prompt := "Alpha", query := "q1", response := "r1", created_by := "u" },
         { id := 2, prompt := "Beta", query := "q2", response := "r2", created_by := "u" }]
        [] "u" "alpha" "Newest First" "All" =
        [{ id := 1, prompt := "Alpha", query := "q1", response := "r1", created_by := "u" }]
    ∧ jsonExportTriples
        [{ id := 1, prompt := "Alpha", query := "q1", response := "r1", created_by := "u" },
         { id := 2, prompt := "Beta", query := "q2", response := "r2", created_by := "u" }]
        [] "u" ≠
      (displayedList
        [{ id := 1, prompt := "Alpha", query := "q1", response := "r1", created_by := "u" },
         { id := 2, prompt := "Beta", query := "q2", response := "r2", created_by := "u" }]
        [] "u" "alpha" "Newest First" "All").map tripleOf
    ∧ csvExportTriples
        [{ id := 1, prompt := "Alpha", query := "q1", response := "r1", created_by := "u" },
         { id := 2, prompt := "Beta", query := "q2", response := "r2", created_by := "u" }]
        [] "u" ≠
      (displayedList
        [{ id := 1, prompt := "Alpha", query := "q1", response := "r1", created_by := "u" },
         { id := 2, prompt := "Beta", query := "q2", response := "r2", created_by := "u" }]
        [] "u" "alpha" "Newest First" "All").map tripleOf := by
  decide

/-- Claim C1 (amended): the export encoder serializes the full fetched
prompt set: for every fetched list, rating table and viewer, the JSON
and CSV artifacts carry exactly the prompt/query/response triples of
all fetched prompts in fetched order (independent of the search, sort
and rating-filter state), and the two encodings round-trip to the same
ordered triples. -/
theorem export_full_fetched_set :
    ∀ (prompts : List PromptRow) (ratings : List RatingRow) (email : String),
      jsonExportTriples prompts ratings email = prompts.map tripleOf
      ∧ csvExportTriples prompts ratings email = prompts.map tripleOf
      ∧ csvExportTriples prompts ratings email = jsonExportTriples prompts ratings email := by
  intro prompts ratings email
  refine ⟨?_, ?_, rfl⟩ <;>
    simp only [jsonExportTriples, csvExportTriples, export_rows, List.map_map] <;> rfl

/-- Claim C4 (confirmed): rating is an upsert on the composite key
`(prompt_id, user_email)` with last-writer-wins and idempotence — for
every prompt and viewer, voting "up" then "down" leaves exactly one
rating row for that key, holding "down"; and repeating the same vote
leaves the handler result (store and cache) unchanged. -/
theorem rating_upsert_lww_idem :
    ∀ (pid : Nat) (email : String) (s : Store) (c0 c1 c2 : Cache) (v : String),
      ((s.ratings.map ratingKey).Nodup →
        ((rateClick pid email "down" (rateClick pid email "up" s c0).1 c1).1).ratings.filter
            (fun r => r.prompt_id == pid && r.user_email == email)
          = [{ prompt_id := pid, user_email := email, rating := "down" }])
      ∧ rateClick pid email v ((rateClick pid email v s c0).1) c2 =
          rateClick pid email v s c0 := by
  intro pid email s c0 c1 c2 v
  constructor
  · intro h
    simpa [rateClick] using upsert_up_down_filter pid email "up" "down" s.ratings h
  · simp [rateClick, upsert_idem]

/-- Witness for `rating_upsert_lww_idem`: a concrete store whose rating
table has distinct composite keys, including a prior vote by the same
viewer on the same prompt. -/
theorem rating_upsert_lww_idem_witness :
    ((rateClick 1 "u" "down" (rateClick 1 "u" "up"
        { prompts := [],
          ratings := [{ prompt_id := 1, user_email := "u", rating := "up" },
                      { prompt_id := 2, user_email := "u", rating := "down" }],
          notes := [] }
        emptyCache).1 emptyCache).1).ratings.filter
        (fun r => r.prompt_id == 1 && r.user_email == "u")
      = [{ prompt_id := 1, user_email := "u", rating := "down" }] :=
  (rating_upsert_lww_idem 1 "u"
      { prompts := [],
        ratings := [{ prompt_id := 1, user_email := "u", rating := "up" },
                    { prompt_id := 2, user_email := "u", rating := "down" }],
        notes := [] }
      emptyCache emptyCache emptyCache "up").1 (by decide)

/-- Claim C6 (confirmed): the admin delete issues, in order, the
delete of all ratings with the prompt id, then of all notes with the
prompt id, then of the prompt itself; afterwards fetching the ratings
and the notes for that prompt id returns empty sets. -/
theorem admin_delete_cascade :
    ∀ (pid t : Nat) (s : Store) (c : Cache),
      adminDeleteOps pid =
        [StoreOp.delRatingsOp pid, StoreOp.delNotesOp pid, StoreOp.delPromptOp pid]
      ∧ (deleteClick true true pid s c).1 = adminDeleteStore pid s
      ∧ (fetch_ratings t ((deleteClick true true pid s c).1) emptyCache).1.filter
          (fun r => r.prompt_id == pid) = []
      ∧ (fetch_notes t ((deleteClick true true pid s c).1) emptyCache).1.filter
          (fun n => n.prompt_id == pid) = []
      ∧ (adminDeleteStore pid s).prompts = s.prompts.filter (fun p => p.id != pid) := by
  intro pid t s c
  refine ⟨rfl, rfl, ?_, ?_, rfl⟩
  · show ((s.ratings.filter (fun r => r.prompt_id != pid)).filter
        (fun r => r.prompt_id == pid)) = []
    exact filter_bne_beq_nil (fun r => r.prompt_id) pid s.ratings
  · show ((s.notes.filter (fun n => n.prompt_id != pid)).filter
        (fun n => n.prompt_id == pid)) = []
    exact filter_bne_beq_nil (fun n => n.prompt_id) pid s.notes

/-- Claim C7 (confirmed): the Add Prompt submit inserts a record with
`created_by` equal to the session email exactly when all three text
fields are non-empty; when any field is empty it surfaces the
validation error ("All fields required", the spec ValidationError),
issues no store call, and leaves the store and cache unchanged. -/
theorem add_prompt_validation :
    ∀ (p q r email : String) (s : Store) (c : Cache),
      ((p ≠ "" ∧ q ≠ "" ∧ r ≠ "") →
        addPromptSubmit p q r email s c =
          (insertPrompt p q r email s, emptyCache, ActionOutcome.performed,
           [StoreOp.insertPromptOp
              { id := freshId s, prompt := p, query := q, response := r,
                created_by := email }]))
      ∧ ((p = "" ∨ q = "" ∨ r = "") →
        addPromptSubmit p q r email s c =
          (s, c, ActionOutcome.errorShown "All fields required", []))
      ∧ ((addPromptSubmit p q r email s c).2.2.1 = ActionOutcome.performed ↔
          (p ≠ "" ∧ q ≠ "" ∧ r ≠ ""))
      ∧ (insertPrompt p q r email s).prompts =
          s.prompts ++
            [{ id := freshId s, prompt := p, query := q, response := r,
               created_by := email }] := by
  intro p q r email s c
  by_cases hp : p = "" <;> by_cases hq : q = "" <;> by_cases hr : r = "" <;>
    simp [addPromptSubmit, insertPrompt, hp, hq, hr]

/-- Witness for `add_prompt_validation`: both the insert branch and the
validation branch at concrete inputs. -/
theorem add_prompt_validation_witness :
    addPromptSubmit "a" "b" "c" "u" { prompts := [], ratings := [], notes := [] }
        emptyCache =
      (insertPrompt "a" "b" "c" "u" { prompts := [], ratings := [], notes := [] },
       emptyCache, ActionOutcome.performed,
       [StoreOp.insertPromptOp
          { id := freshId { prompts := [], ratings := [], notes := [] },
            prompt := "a", query := "b", response := "c", created_by := "u" }])
    ∧ addPromptSubmit "a" "" "c" "u" { prompts := [], ratings := [], notes := [] }
        emptyCache =
      ({ prompts := [], ratings := [], notes := [] }, emptyCache,
       ActionOutcome.errorShown "All fields required", []) :=
  ⟨(add_prompt_validation "a" "b" "c" "u"
      { prompts := [], ratings := [], notes := [] } emptyCache).1
      (by exact ⟨by decide, by decide, by decide⟩),
   (add_prompt_validation "a" "" "c" "u"
      { prompts := [], ratings := [], notes := [] } emptyCache).2.1
      (Or.inr (Or.inl rfl))⟩

/-- Claim C8 (confirmed): for each of the three read queries, a second
fetch within the 60-time-unit window after a store-hitting fetch (with
no intervening write) returns the cached value without a record-store
call; a cold (cleared) cache makes each fetch hit the store; and every
successful write handler — add, edit, delete, rate, annotate, bulk
importing — leaves the cache cleared, so the next fetch of each query
hits the store. -/
theorem cache_policy :
    ∀ (t0 t1 now pid : Nat) (s s1 : Store) (c : Cache)
      (p q r text email v : String) (fails : Nat → Bool) (entries : List ImportEntry),
      t1 - t0 < 60 →
      p ≠ "" → q ≠ "" → r ≠ "" → text ≠ "" →
      (bulkImportLoop email fails 0 entries s).2 = true →
      (fetch_prompts t1 s1 (fetch_prompts t0 s emptyCache).2.2 =
          ((fetch_prompts t0 s emptyCache).1, false, (fetch_prompts t0 s emptyCache).2.2)
        ∧ fetch_ratings t1 s1 (fetch_ratings t0 s emptyCache).2.2 =
          ((fetch_ratings t0 s emptyCache).1, false, (fetch_ratings t0 s emptyCache).2.2)
        ∧ fetch_notes t1 s1 (fetch_notes t0 s emptyCache).2.2 =
          ((fetch_notes t0 s emptyCache).1, false, (fetch_notes t0 s emptyCache).2.2))
      ∧ ((fetch_prompts t0 s emptyCache).2.1 = true
        ∧ (fetch_ratings t0 s emptyCache).2.1 = true
        ∧ (fetch_notes t0 s emptyCache).2.1 = true)
      ∧ ((addPromptSubmit p q r email s c).2.1 = emptyCache
        ∧ (editPromptSubmit pid p q r email now s c).2.1 = emptyCache
        ∧ (deleteClick true true pid s c).2.1 = emptyCache
        ∧ (rateClick pid email v s c).2 = emptyCache
        ∧ (addNoteSubmit pid text email s c).2.1 = emptyCache
        ∧ (bulkImportClick email fails entries s c).2.1 = emptyCache) := by
  intro t0 t1 now pid s s1 c p q r text email v fails entries ht hp hq hr htext hbulk
  refine ⟨⟨?_, ?_, ?_⟩, ⟨rfl, rfl, rfl⟩, ⟨?_, ?_, rfl, rfl, ?_, ?_⟩⟩
  · simp [fetch_prompts, emptyCache, ht]
  · simp [fetch_ratings, emptyCache, ht]
  · simp [fetch_notes, emptyCache, ht]
  · simp [addPromptSubmit, hp, hq, hr]
  · simp [editPromptSubmit, hp, hq, hr]
  · simp [addNoteSubmit, htext]
  · rcases hres : bulkImportLoop email fails 0 entries s with ⟨s2, flag⟩
    rw [hres] at hbulk
    simp only at hbulk
    subst hbulk
    simp [bulkImportClick, hres]

/-- Witness for `cache_policy` at concrete times, texts and a
successfully importing document. -/
theorem cache_policy_witness :
    (fetch_prompts 30 { prompts := [], ratings := [], notes := [] }
        (fetch_prompts 0 { prompts := [], ratings := [], notes := [] } emptyCache).2.2 =
        ((fetch_prompts 0 { prompts := [], ratings := [], notes := [] } emptyCache).1, false,
         (fetch_prompts 0 { prompts := [], ratings := [], notes := [] } emptyCache).2.2)
      ∧ fetch_ratings 30 { prompts := [], ratings := [], notes := [] }
          (fetch_ratings 0 { prompts := [], ratings := [], notes := [] } emptyCache).2.2 =
        ((fetch_ratings 0 { prompts := [], ratings := [], notes := [] } emptyCache).1, false,
         (fetch_ratings 0 { prompts := [], ratings := [], notes := [] } emptyCache).2.2)
      ∧ fetch_notes 30 { prompts := [], ratings := [], notes := [] }
          (fetch_notes 0 { prompts := [], ratings := [], notes := [] } emptyCache).2.2 =
        ((fetch_notes 0 { prompts := [], ratings := [], notes := [] } emptyCache).1, false,
         (fetch_notes 0 { prompts := [], ratings := [], notes := [] } emptyCache).2.2))
    ∧ ((fetch_prompts 0 { prompts := [], ratings := [], notes := [] } emptyCache).2.1 = true
      ∧ (fetch_ratings 0 { prompts := [], ratings := [], notes := [] } emptyCache).2.1 = true
      ∧ (fetch_notes 0 { prompts := [], ratings := [], notes := [] } emptyCache).2.1 = true)
    ∧ ((addPromptSubmit "a" "b" "c" "u" { prompts := [], ratings := [], notes := [] }
          emptyCache).2.1 = emptyCache
      ∧ (editPromptSubmit 1 "a" "b" "c" "u" 7 { prompts := [], ratings := [], notes := [] }
          emptyCache).2.1 = emptyCache
      ∧ (deleteClick true true 1 { prompts := [], ratings := [], notes := [] }
          emptyCache).2.1 = emptyCache
      ∧ (rateClick 1 "u" "up" { prompts := [], ratings := [], notes := [] }
          emptyCache).2 = emptyCache
      ∧ (addNoteSubmit 1 "n" "u" { prompts := [], ratings := [], notes := [] }
          emptyCache).2.1 = emptyCache
      ∧ (bulkImportClick "u" (fun _ => false)
          [{ prompt := some "p0", query := none, response := none }]
          { prompts := [], ratings := [], notes := [] } emptyCache).2.1 = emptyCache) :=
  cache_policy 0 30 7 1 { prompts := [], ratings := [], notes := [] }
    { prompts := [], ratings := [], notes := [] } emptyCache
    "a" "b" "c" "n" "u" "up" (fun _ => false)
    [{ prompt := some "p0", query := none, response := none }]
    (by decide) (by decide) (by decide) (by decide) (by decide) rfl

/-- Claim C10 (confirmed): bulk import is best-effort per row — if the
store insert of entry `k` is the first to fail, the prompts inserted
for the entries before `k` remain in the store with no rollback, no
entry at or after `k` is inserted, and the read cache is left exactly
as it was (the success-path cache clear is skipped). -/
theorem bulk_import_best_effort :
    ∀ (email : String) (fails : Nat → Bool) (entries : List ImportEntry)
      (s : Store) (c : Cache) (k : Nat),
      k < entries.length → fails k = true → (∀ j, j < k → fails j = false) →
      bulkImportClick email fails entries s c =
        (importInserted email (entries.take k) s, c, false) := by
  intro email fails entries s c k hk hf hprev
  have hloop := bulkLoop_stops email fails entries 0 k s
    (by simpa using hk) (by simpa using hf) (by simpa using hprev)
  simp [bulkImportClick, hloop]

/-- Witness for `bulk_import_best_effort`: a three-entry document whose
second insert fails, run against a non-empty cache that stays
untouched. -/
theorem bulk_import_best_effort_witness :
    bulkImportClick "u" (fun n => n == 1)
        [{ prompt := some "p0", query := none, response := none },
         { prompt := some "p1", query := some "q1", response := none },
         { prompt := none, query := none, response := some "r2" }]
        { prompts := [], ratings := [], notes := [] }
        { promptsE := some (3, []), ratingsE := none, notesE := none }
      = (importInserted "u" [{ prompt := some "p0", query := none, response := none }]
           { prompts := [], ratings := [], notes := [] },
         { promptsE := some (3, []), ratingsE := none, notesE := none }, false) :=
  bulk_import_best_effort "u" (fun n => n == 1)
    [{ prompt := some "p0", query := none, response := none },
     { prompt := some "p1", query := some "q1", response := none },
     { prompt := none, query := none, response := some "r2" }]
    { prompts := [], ratings := [], notes := [] }
    { promptsE := some (3, []), ratingsE := none, notesE := none }
    1 (by decide) (by decide) (by decide)

end PromptManager
